import Mathlib

/-!
Shallow embedding of the measurement-control core of the `zero-db` repository
(`src/backend/app`), together with proofs about its specification.

Modelling conventions:
- Python machine floats carry no arithmetic in the verified code paths
  (they are stored, compared, or echoed back), so physical quantities
  (voltages, powers, angles, epoch timestamps) are embedded as `ℚ`.
- `datetime.now().timestamp()` is an environment input; every function that
  reads the clock takes the current time as an explicit argument `now`/`t`.
- Python `dict` is embedded as an association list with Python's assignment
  semantics: updating an existing key keeps its position, a new key is
  appended.  Key lookup returns the first (unique, for dicts) occurrence.
- The fallible-result type `Ok`/`Err` of `app/core/types.py` is embedded as
  `Result`.  `app/core/state_machine.py` imports the run-status enumeration
  under the name `MeasurementStatus`; its seven values (`idle` … `cancelled`)
  are declared in `app/core/types.py` (there under the name
  `MeasurementState`, the file being a noted temporary simplification).
- All embedded functions are pure; a Python `frozen` dataclass argument is
  never mutated, so "the input state is left untouched" is inherent to the
  embedding and each such claim is additionally expressed by the shape of
  the returned value.
-/

namespace ZeroDb

/-- Result type from `app/core/types.py`: `Ok(value) | Err(error)`. -/
inductive Result (α : Type) (ε : Type) where
  | Ok (value : α)
  | Err (error : ε)
deriving Repr, DecidableEq

/-- `Ok.is_ok() / Err.is_ok()` from `app/core/types.py`. -/
def Result.is_ok {α ε : Type} : Result α ε → Bool
  | .Ok _ => true
  | .Err _ => false

/-- `Ok.is_err() / Err.is_err()` from `app/core/types.py`. -/
def Result.is_err {α ε : Type} : Result α ε → Bool
  | .Ok _ => false
  | .Err _ => true

/-- Run-status enumeration (`idle` … `cancelled`), declared in
`app/core/types.py` and used by `app/core/state_machine.py` under the name
`MeasurementStatus`. -/
inductive MeasurementStatus where
  | idle
  | calibrating
  | running
  | paused
  | completed
  | failed
  | cancelled
deriving Repr, DecidableEq

/-- String value of a status member, as interpolated into the error messages
of `MeasurementStateMachine.transition`. -/
def statusStr : MeasurementStatus → String
  | .idle => "idle"
  | .calibrating => "calibrating"
  | .running => "running"
  | .paused => "paused"
  | .completed => "completed"
  | .failed => "failed"
  | .cancelled => "cancelled"

/-- Python `dict` lookup (`d[k]` / `k in d`): first matching key. -/
def pyDictGet {α β : Type} [DecidableEq α] : List (α × β) → α → Option β
  | [], _ => none
  | (k, v) :: rest, k0 => if k = k0 then some v else pyDictGet rest k0

/-- Python `dict` assignment `d[k] = v`: an existing key keeps its position
and gets the new value, a fresh key is appended.  This is also the semantics
of `newMap = dict(old); newMap[k] = v` and of the `\x7b**old, k: v\x7d` merge in
the `RecordPower` branch of `transition`. -/
def pyDictSet {α β : Type} [DecidableEq α] : List (α × β) → α → β → List (α × β)
  | [], k, v => [(k, v)]
  | (k0, v0) :: rest, k, v =>
      if k0 = k then (k0, v) :: rest else (k0, v0) :: pyDictSet rest k v

/-- Immutable measurement state snapshot (`MeasurementState`,
`app/core/state_machine.py` lines 14-30). `power_readings` maps a device
index to a map from stage name to power (dBm). -/
structure MeasurementState where
  status : MeasurementStatus
  order_id : Option String
  current_device_index : Int
  total_devices : Nat
  current_operation : Option String
  power_readings : List (Int × List (String × ℚ))
  calibrated_setup_id : Option Int
  left_stage_angle : Option ℚ
  right_stage_angle : Option ℚ
  error : Option String
  started_at : Option ℚ
  completed_at : Option ℚ
  timestamp : ℚ
deriving Repr, DecidableEq

/-- `MeasurementState.successful_devices`: count of non-empty values of
`power_readings` (`len([p for p in self.power_readings.values() if p])`). -/
def MeasurementState.successful_devices (s : MeasurementState) : Nat :=
  ((s.power_readings.map Prod.snd).filter (fun p => !p.isEmpty)).length

/-- `MeasurementState.duration_seconds`; `now` stands for
`datetime.now().timestamp()`.  (The Python `or` fallback also discards a
stored `0.0`; no claim depends on that corner.) -/
def MeasurementState.duration_seconds (s : MeasurementState) (now : ℚ) : Option ℚ :=
  match s.started_at with
  | none => none
  | some st => some (s.completed_at.getD now - st)

/-- `MeasurementState.is_running`. -/
def MeasurementState.is_running (s : MeasurementState) : Bool :=
  s.status = .running

/-- `MeasurementState.is_paused`. -/
def MeasurementState.is_paused (s : MeasurementState) : Bool :=
  s.status = .paused

/-- `MeasurementState.is_active`: status in `(RUNNING, PAUSED)`. -/
def MeasurementState.is_active (s : MeasurementState) : Bool :=
  s.status = .running ∨ s.status = .paused

/-- `MeasurementState.is_terminal`: status in `(COMPLETED, FAILED, CANCELLED)`. -/
def MeasurementState.is_terminal (s : MeasurementState) : Bool :=
  s.status = .completed ∨ s.status = .failed ∨ s.status = .cancelled

/-- State machine events (`app/core/state_machine.py` lines 75-167).
Python's event hierarchy is open (any subclass of `MeasurementEvent` can be
passed in); `UnknownEvent` stands for an object of any unrecognized event
class, carrying `type(event).__name__`. -/
inductive MeasurementEvent where
  | StartMeasurement (order_id : String) (total_devices : Nat)
  | CompleteCalibration (calibrated_setup_id : Int)
  | CompleteChipAngleCalibration (left_stage_angle : ℚ) (right_stage_angle : ℚ)
  | StartDevice (device_index : Int)
  | UpdateOperation (operation : String)
  | RecordPower (device_index : Int) (stage : String) (power_dbm : ℚ)
  | CompleteDevice
  | PauseMeasurement
  | ResumeMeasurement
  | CancelMeasurement
  | CompleteMeasurement
  | FailMeasurement (error : String)
  | UnknownEvent (typeName : String)
deriving Repr, DecidableEq

/-- `MeasurementStateMachine.initial_state()`; `now` is the construction
time used for the `timestamp` default. -/
def MeasurementStateMachine.initial_state (now : ℚ) : MeasurementState :=
  { status := .idle
    order_id := none
    current_device_index := 0
    total_devices := 0
    current_operation := none
    power_readings := []
    calibrated_setup_id := none
    left_stage_angle := none
    right_stage_angle := none
    error := none
    started_at := none
    completed_at := none
    timestamp := now }

/-- `MeasurementStateMachine.transition(state, event)`
(`app/core/state_machine.py` lines 195-368), with the clock passed in as
`now`. Each branch mirrors the corresponding Python branch, including the
guard, the fields of the replaced state, and the error message. -/
def MeasurementStateMachine.transition (now : ℚ) (state : MeasurementState)
    (event : MeasurementEvent) : Result MeasurementState String :=
  match event with
  | .StartMeasurement order_id total_devices =>
      if state.status ≠ .idle then
        .Err ("Cannot start measurement from " ++ statusStr state.status ++ " state")
      else
        .Ok { state with
              status := .calibrating
              order_id := some order_id
              total_devices := total_devices
              current_device_index := 0
              power_readings := []
              error := none
              started_at := some now
              timestamp := now }
  | .CompleteCalibration setupId =>
      if state.status ≠ .calibrating then
        .Err ("Cannot complete calibration from " ++ statusStr state.status ++ " state")
      else
        .Ok { state with calibrated_setup_id := some setupId, timestamp := now }
  | .CompleteChipAngleCalibration leftAngle rightAngle =>
      if state.status ≠ .calibrating then
        .Err ("Cannot complete chip angle calibration from " ++
              statusStr state.status ++ " state")
      else
        .Ok { state with
              status := .running
              left_stage_angle := some leftAngle
              right_stage_angle := some rightAngle
              timestamp := now }
  | .StartDevice device_index =>
      if ¬ (state.status = .running ∨ state.status = .calibrating) then
        .Err ("Cannot start device from " ++ statusStr state.status ++ " state")
      else
        let new_state :=
          { state with current_device_index := device_index, timestamp := now }
        if state.status = .calibrating then
          .Ok { new_state with status := .running }
        else
          .Ok new_state
  | .UpdateOperation op =>
      if ¬ (state.status = .running ∨ state.status = .calibrating) then
        .Err ("Cannot update operation from " ++ statusStr state.status ++ " state")
      else
        .Ok { state with current_operation := some op, timestamp := now }
  | .RecordPower device_index stage power_dbm =>
      if !state.is_active then
        .Err ("Cannot record power from " ++ statusStr state.status ++ " state")
      else
        let deviceMap := (pyDictGet state.power_readings device_index).getD []
        let new_power_readings :=
          pyDictSet state.power_readings device_index (pyDictSet deviceMap stage power_dbm)
        .Ok { state with power_readings := new_power_readings, timestamp := now }
  | .CompleteDevice =>
      if state.status ≠ .running then
        .Err ("Cannot complete device from " ++ statusStr state.status ++ " state")
      else
        .Ok { state with timestamp := now }
  | .PauseMeasurement =>
      if state.status ≠ .running then
        .Err ("Cannot pause from " ++ statusStr state.status ++ " state")
      else
        .Ok { state with status := .paused, current_operation := none, timestamp := now }
  | .ResumeMeasurement =>
      if state.status ≠ .paused then
        .Err ("Cannot resume from " ++ statusStr state.status ++ " state")
      else
        .Ok { state with status := .running, timestamp := now }
  | .CancelMeasurement =>
      if !state.is_active then
        .Err ("Cannot cancel from " ++ statusStr state.status ++ " state")
      else
        .Ok { state with
              status := .cancelled
              current_operation := none
              completed_at := some now
              timestamp := now }
  | .CompleteMeasurement =>
      if state.status ≠ .running then
        .Err ("Cannot complete from " ++ statusStr state.status ++ " state")
      else
        .Ok { state with
              status := .completed
              current_operation := none
              completed_at := some now
              timestamp := now }
  | .FailMeasurement err =>
      if state.is_terminal then
        .Err ("Cannot fail from terminal " ++ statusStr state.status ++ " state")
      else
        .Ok { state with
              status := .failed
              error := some err
              current_operation := none
              completed_at := some now
              timestamp := now }
  | .UnknownEvent typeName =>
      .Err ("Unknown event type: " ++ typeName)

/-- The transition table's validity predicate: `validPair state event` holds
exactly when the guard of the corresponding branch of `transition` lets the
event through (spec §4.1 table).  An unrecognized event kind is valid in no
state. -/
def validPair (state : MeasurementState) (event : MeasurementEvent) : Bool :=
  match event with
  | .StartMeasurement _ _ => state.status = .idle
  | .CompleteCalibration _ => state.status = .calibrating
  | .CompleteChipAngleCalibration _ _ => state.status = .calibrating
  | .StartDevice _ => state.status = .running ∨ state.status = .calibrating
  | .UpdateOperation _ => state.status = .running ∨ state.status = .calibrating
  | .RecordPower _ _ _ => state.is_active
  | .CompleteDevice => state.status = .running
  | .PauseMeasurement => state.status = .running
  | .ResumeMeasurement => state.status = .paused
  | .CancelMeasurement => state.is_active
  | .CompleteMeasurement => state.status = .running
  | .FailMeasurement _ => !state.is_terminal
  | .UnknownEvent _ => false

/-- Device information from chip design (`app/services/controller.py`). -/
structure DeviceInfo where
  index : Int
  name : String
  devices_set_connector_id : Int
  input_port_position_y_um : ℚ
  output_port_position_y_um : ℚ
deriving Repr, DecidableEq

/-- Configuration for a measurement run (`app/services/controller.py`). -/
structure MeasurementConfig where
  order_id : String
  devices : List DeviceInfo
  suruga_base_url : String
  exfo_base_url : String
  power_threshold_db : ℚ := 3 / 2
  devices_between_alignments : Nat := 5
  perform_periodic_alignment : Bool := true
deriving Repr, DecidableEq

/-- Value of `MeasurementOperation.MOVING_TO_DEVICE.value`.  The
`MeasurementOperation` enumeration is imported by `controller.py` from the
full `types` module, which is not part of the sources (the checked-in
`types.py` is a noted temporary simplification); the label's exact text is
irrelevant to every claim. -/
def movingToDevice : String := "moving_to_device"

/-- Progress events yielded by `MeasurementController.run()`.  Constructors
carry the keyword fields passed at the corresponding `yield ... .now(...)`
site in `controller.py`; the wall-clock `timestamp` attached by `.now` is
omitted (an environment input no claim mentions). -/
inductive ProgressEvent where
  | measurementStarted (order_id : String) (total_devices : Nat)
  | deviceStarted (device_index : Int) (device_name : String) (total_devices : Nat)
  | deviceMoving (device_index : Int) (device_name : String)
  | deviceSkipped (device_index : Int) (device_name : String) (reason : String)
  | deviceCompleted (device_index : Int) (device_name : String)
  | errorOccurred (error : String) (device_index : Option Int) (operation : String)
  | measurementPaused (device_index : Int)
  | measurementResumed (device_index : Int)
  | measurementCancelled (device_index : Int)
  | measurementCompleted (total_devices : Nat) (successful_devices : Nat)
      (failed_devices : Int) (total_duration_seconds : ℚ)
  | measurementFailed (error : String) (device_index : Option Int)
deriving Repr, DecidableEq

/-- Terminal progress events: `measurement_completed`,
`measurement_cancelled`, `measurement_failed`. -/
def isTerminalEvent : ProgressEvent → Bool
  | .measurementCancelled _ => true
  | .measurementCompleted _ _ _ _ => true
  | .measurementFailed _ _ => true
  | _ => false

/-- Measurement-paused progress events (used to state the pause claims). -/
def isPausedEvent : ProgressEvent → Bool
  | .measurementPaused _ => true
  | _ => false

/-- Run-lifecycle control events of the state machine: the five event kinds
`PauseMeasurement`, `ResumeMeasurement`, `CancelMeasurement`,
`CompleteMeasurement`, `FailMeasurement`. -/
def isLifecycleEvent : MeasurementEvent → Bool
  | .PauseMeasurement => true
  | .ResumeMeasurement => true
  | .CancelMeasurement => true
  | .CompleteMeasurement => true
  | .FailMeasurement _ => true
  | _ => false

/-- Exception behaviour of the two `async with` context entries in `run()`.
In the checked-in per-device pipeline every hardware step is a placeholder,
so the clients are touched only when the two context managers are entered:
`some msg` means entering that client's context raises an exception
rendered as `msg`, which the surrounding `try` converts to
`measurement_failed`; `none` means entry returns normally.  Note that
`BaseHardwareClient.connect` (`base.py` lines 36-54) catches
`httpx.ConnectError` and every other `Exception` into a `Result` that
`__aenter__` discards (see `BaseHardwareClient.aenter`), so no connection
failure ever reaches the `some` branches: the only behaviour the program
can realize is `⟨none, none⟩`, and the `some` branches only model the
controller's `except` path.  Context exit (`disconnect`) is library cleanup
and is modelled as non-raising. -/
structure HardwareBehavior where
  surugaConnectRaises : Option String
  exfoConnectRaises : Option String

/-- Cross-task control signals as the run loop observes them.
`cancelSet i` / `pauseSet i` are the values of `_cancel_event.is_set()` /
`_pause_event.is_set()` read at the checkpoint opening loop iteration `i`
(both events are set by `cancel()` / `pause()` and never cleared, so real
schedules are monotone; the model allows arbitrary oracles, a superset).
`resumeSignalled n` tells whether a `resume()` call ever arrives while the
controller is blocked in its `n`-th pause; if not, `_resume_event.wait()`
never returns and the generator produces no further events. -/
structure ControlSchedule where
  cancelSet : Nat → Bool
  pauseSet : Nat → Bool
  resumeSignalled : Nat → Bool

/-- Outcome of one `_process_device` call: events yielded, state-machine
events applied (passed to `transition`), successive values assigned to
`self.state`, and the final `self.state`. -/
structure StepResult where
  events : List ProgressEvent
  appliedEvents : List MeasurementEvent
  stateTrace : List MeasurementState
  finalState : MeasurementState
deriving Repr

/-- Outcome of a whole `run()` call: events yielded, state-machine events
applied, every value `self.state` ever holds (starting with the constructor
state), the last of those, and whether the generator ran to completion
(`completed = false` means it is blocked forever awaiting a resume signal,
producing no further events). -/
structure RunResult where
  events : List ProgressEvent
  appliedEvents : List MeasurementEvent
  stateTrace : List MeasurementState
  finalState : MeasurementState
  completed : Bool
deriving Repr

/-- `MeasurementController._process_device(device)` (`controller.py` lines
183-248): yields `device_started`; applies `StartDevice` — on rejection
yields `error_occurred` then `device_skipped` and returns; otherwise yields
`device_moving`, applies `UpdateOperation` (keeping the old state on
rejection), applies `CompleteDevice` (likewise), yields `device_completed`.
The movement/contact/power/measurement steps are placeholders (`TODO
Phase 2`) in the source and contribute nothing. -/
def MeasurementController.processDevice (t : ℚ) (cfg : MeasurementConfig)
    (d : DeviceInfo) (s : MeasurementState) : StepResult :=
  match MeasurementStateMachine.transition t s (.StartDevice d.index) with
  | .Err msg =>
      { events := [.deviceStarted d.index d.name cfg.devices.length,
                   .errorOccurred msg (some d.index) "start_device",
                   .deviceSkipped d.index d.name msg]
        appliedEvents := [.StartDevice d.index]
        stateTrace := []
        finalState := s }
  | .Ok s1 =>
      let r2 := MeasurementStateMachine.transition t s1 (.UpdateOperation movingToDevice)
      let s2 := match r2 with | .Ok x => x | .Err _ => s1
      let r3 := MeasurementStateMachine.transition t s2 .CompleteDevice
      let s3 := match r3 with | .Ok x => x | .Err _ => s2
      { events := [.deviceStarted d.index d.name cfg.devices.length,
                   .deviceMoving d.index d.name,
                   .deviceCompleted d.index d.name]
        appliedEvents := [.StartDevice d.index, .UpdateOperation movingToDevice,
                          .CompleteDevice]
        stateTrace := [s1] ++ (match r2 with | .Ok x => [x] | .Err _ => [])
                           ++ (match r3 with | .Ok x => [x] | .Err _ => [])
        finalState := s3 }

/-- The per-device `for` loop of `run()` (`controller.py` lines 149-174)
followed by the final `measurement_completed` yield: at each iteration the
cancel flag is checked first (yield `measurement_cancelled` and stop), then
the pause flag (yield `measurement_paused`; block until a resume signal,
which clears `_resume_event` and yields `measurement_resumed`; the pause
flag itself is never cleared), then the device is processed.  `i` counts
loop iterations (checkpoints), `p` counts pauses taken so far. -/
def MeasurementController.deviceLoop (t : ℚ) (cfg : MeasurementConfig)
    (sched : ControlSchedule) :
    List DeviceInfo → Nat → Nat → MeasurementState → RunResult
  | [], _, _, s =>
      { events := [.measurementCompleted cfg.devices.length s.successful_devices
                    ((cfg.devices.length : Int) - (s.successful_devices : Int))
                    ((s.duration_seconds t).getD 0)]
        appliedEvents := []
        stateTrace := []
        finalState := s
        completed := true }
  | d :: rest, i, p, s =>
      if sched.cancelSet i then
        { events := [.measurementCancelled d.index]
          appliedEvents := []
          stateTrace := []
          finalState := s
          completed := true }
      else if sched.pauseSet i then
        if sched.resumeSignalled p then
          let step := MeasurementController.processDevice t cfg d s
          let restR := MeasurementController.deviceLoop t cfg sched rest (i + 1) (p + 1)
                        step.finalState
          { events := [.measurementPaused d.index, .measurementResumed d.index] ++
                      step.events ++ restR.events
            appliedEvents := step.appliedEvents ++ restR.appliedEvents
            stateTrace := step.stateTrace ++ restR.stateTrace
            finalState := restR.finalState
            completed := restR.completed }
        else
          { events := [.measurementPaused d.index]
            appliedEvents := []
            stateTrace := []
            finalState := s
            completed := false }
      else
        let step := MeasurementController.processDevice t cfg d s
        let restR := MeasurementController.deviceLoop t cfg sched rest (i + 1) p
                      step.finalState
        { events := step.events ++ restR.events
          appliedEvents := step.appliedEvents ++ restR.appliedEvents
          stateTrace := step.stateTrace ++ restR.stateTrace
          finalState := restR.finalState
          completed := restR.completed }

/-- `MeasurementController.run()` (`controller.py` lines 96-177): yields
`measurement_started`; enters both hardware client contexts (an exception
there is caught by the surrounding `try` and yields `measurement_failed`);
applies `StartMeasurement` (on rejection yields `measurement_failed` and
returns); runs the device loop; after the loop yields
`measurement_completed`.  The controller's `self.state` starts as
`initial_state` from the constructor.  `t` stands for every
`datetime.now().timestamp()` reading (no claim depends on clock values). -/
def MeasurementController.run (t : ℚ) (cfg : MeasurementConfig)
    (hw : HardwareBehavior) (sched : ControlSchedule) : RunResult :=
  let s0 := MeasurementStateMachine.initial_state t
  let startEv := ProgressEvent.measurementStarted cfg.order_id cfg.devices.length
  match hw.surugaConnectRaises with
  | some e =>
      { events := [startEv, .measurementFailed e none]
        appliedEvents := []
        stateTrace := [s0]
        finalState := s0
        completed := true }
  | none =>
      match hw.exfoConnectRaises with
      | some e =>
          { events := [startEv, .measurementFailed e none]
            appliedEvents := []
            stateTrace := [s0]
            finalState := s0
            completed := true }
      | none =>
          match MeasurementStateMachine.transition t s0
                  (.StartMeasurement cfg.order_id cfg.devices.length) with
          | .Err msg =>
              { events := [startEv, .measurementFailed msg none]
                appliedEvents := [.StartMeasurement cfg.order_id cfg.devices.length]
                stateTrace := [s0]
                finalState := s0
                completed := true }
          | .Ok s1 =>
              let r := MeasurementController.deviceLoop t cfg sched cfg.devices 0 0 s1
              { events := [startEv] ++ r.events
                appliedEvents := [.StartMeasurement cfg.order_id cfg.devices.length] ++
                                 r.appliedEvents
                stateTrace := [s0, s1] ++ r.stateTrace
                finalState := r.finalState
                completed := r.completed }

/-- Instrumented outcome of `check_contact_and_retract`: the returned
`Result` plus the number of `move_relative` calls, `get_analog_input` reads
and `cancel_event.is_set()` checks it performed. -/
structure ContactTrace where
  result : Result Bool String
  moveCalls : Nat
  sensorReads : Nat
  cancelChecks : Nat
deriving Repr, DecidableEq

/-- The `for step in range(max_retract_steps)` loop of
`check_contact_and_retract` (`app/hardware/suruga_seiki.py` lines 384-411).
Each iteration: check cancellation; `move_relative(z_axis,
-retract_step_um, speed)`; re-read the sensor; succeed when the voltage is
at or below threshold.  `sensor n` is the outcome of the `n`-th
`get_analog_input(contact_channel)` call of the whole procedure (the
initial read is call `0`), `cancelSet k` the value of
`cancel_event.is_set()` before step `k`, and `moveRes k` the outcome of the
step-`k` retraction move. -/
def SurugaSeikiClient.retractLoop (sensor : Nat → Result ℚ String)
    (cancelSet : Nat → Bool) (moveRes : Nat → Result Unit String)
    (threshold_voltage : ℚ) (max_retract_steps : Nat) :
    Nat → Nat → ContactTrace
  | _, 0 =>
      { result := .Err ("Contact persisted after " ++ toString max_retract_steps ++
                        " retraction steps")
        moveCalls := 0, sensorReads := 0, cancelChecks := 0 }
  | step, remaining + 1 =>
      if cancelSet step then
        { result := .Err "Operation cancelled during contact retraction"
          moveCalls := 0, sensorReads := 0, cancelChecks := 1 }
      else
        match moveRes step with
        | .Err e =>
            { result := .Err ("Failed to retract Z at step " ++ toString step ++ ": " ++ e)
              moveCalls := 1, sensorReads := 0, cancelChecks := 1 }
        | .Ok _ =>
            match sensor (step + 1) with
            | .Err e =>
                { result := .Err ("Failed to read contact sensor after retraction: " ++ e)
                  moveCalls := 1, sensorReads := 1, cancelChecks := 1 }
            | .Ok v =>
                if v ≤ threshold_voltage then
                  { result := .Ok true, moveCalls := 1, sensorReads := 1, cancelChecks := 1 }
                else
                  let r := SurugaSeikiClient.retractLoop sensor cancelSet moveRes
                            threshold_voltage max_retract_steps (step + 1) remaining
                  { result := r.result
                    moveCalls := r.moveCalls + 1
                    sensorReads := r.sensorReads + 1
                    cancelChecks := r.cancelChecks + 1 }

/-- `SurugaSeikiClient.check_contact_and_retract` (`suruga_seiki.py` lines
351-413): read the contact sensor once; if the voltage exceeds the
threshold, run the bounded retraction loop; otherwise return `Ok(False)`
("no contact") without any motion.  The fixed `contact_channel` / `z_axis` /
`retract_step_um` / `speed_um_per_s` arguments are absorbed into the
`sensor` and `moveRes` oracles (every `move_relative` call passes the same
`-retract_step_um` and speed). -/
def SurugaSeikiClient.check_contact_and_retract (sensor : Nat → Result ℚ String)
    (cancelSet : Nat → Bool) (moveRes : Nat → Result Unit String)
    (threshold_voltage : ℚ) (max_retract_steps : Nat) : ContactTrace :=
  match sensor 0 with
  | .Err e =>
      { result := .Err ("Failed to read contact sensor: " ++ e)
        moveCalls := 0, sensorReads := 1, cancelChecks := 0 }
  | .Ok v =>
      if v > threshold_voltage then
        let r := SurugaSeikiClient.retractLoop sensor cancelSet moveRes
                  threshold_voltage max_retract_steps 0 max_retract_steps
        { result := r.result
          moveCalls := r.moveCalls
          sensorReads := r.sensorReads + 1
          cancelChecks := r.cancelChecks }
      else
        { result := .Ok false, moveCalls := 0, sensorReads := 1, cancelChecks := 0 }

/-- An asyncio task handle as `MeasurementManager` observes it:
`task.done()`. -/
structure AsyncTask where
  done : Bool
deriving Repr, DecidableEq

/-- A `MeasurementController` as the manager owns it: its configuration and
its current state snapshot (constructed at `initial_state`). -/
structure ControllerHandle where
  config : MeasurementConfig
  state : MeasurementState
deriving Repr, DecidableEq

/-- `MeasurementManager` fields relevant to run lifecycle
(`app/services/measurement_manager.py`): the optional current controller
and its optional background task. -/
structure MeasurementManager where
  controller : Option ControllerHandle
  task : Option AsyncTask

/-- `MeasurementManager.is_active()`: `self.controller is not None and
(self.task is not None and not self.task.done())`. -/
def MeasurementManager.is_active (m : MeasurementManager) : Bool :=
  m.controller.isSome && (m.task.isSome && !((m.task.getD { done := true }).done))

/-- `MeasurementManager.start(config)` (`measurement_manager.py` lines
57-71): raises `RuntimeError("A measurement is already running")` when
`is_active()`, else installs a fresh controller (whose state is
`initial_state`) and a fresh not-yet-done background task.  The raise is
embedded as `Except.error`; on error nothing is assigned, so the previous
controller and its state are untouched. -/
def MeasurementManager.start (t : ℚ) (m : MeasurementManager)
    (config : MeasurementConfig) : Except String MeasurementManager :=
  if m.is_active then
    .error "A measurement is already running"
  else
    .ok { m with
          controller := some { config := config
                               state := MeasurementStateMachine.initial_state t }
          task := some { done := false } }

/-- Power reading recorded for device `d` at stage `st`:
`state.power_readings[d][st]` when present. -/
def readingAt (s : MeasurementState) (d : Int) (st : String) : Option ℚ :=
  match pyDictGet s.power_readings d with
  | none => none
  | some m => pyDictGet m st

/-- Number of distinct device indices whose stage mapping in
`power_readings` is non-empty (the spec's reading of
`successful_devices`). -/
def countDevicesWithReadings (s : MeasurementState) : Nat :=
  (((s.power_readings.filter (fun pr => !pr.2.isEmpty)).map Prod.fst).dedup).length

/-- Events of kind `RecordPower` or `StartDevice`. -/
def isRecordOrStartDevice : MeasurementEvent → Bool
  | .RecordPower _ _ _ => true
  | .StartDevice _ => true
  | _ => false

/-- Apply a sequence of timestamped events through `transition` the way the
controller does: an accepted event replaces the state, a rejected event
leaves it unchanged; the boolean records whether every event was
accepted. -/
def applyEvents : MeasurementState → List (ℚ × MeasurementEvent) → MeasurementState × Bool
  | s, [] => (s, true)
  | s, (t, e) :: rest =>
      match MeasurementStateMachine.transition t s e with
      | .Ok s1 => applyEvents s1 rest
      | .Err _ => ((applyEvents s rest).1, false)

/-- Statuses a controller-owned state can be in: the controller only ever
applies `StartMeasurement`, `StartDevice`, `UpdateOperation` and
`CompleteDevice`, which keep the status in `idle`/`calibrating`/`running`. -/
def runPhaseStatus (s : MeasurementState) : Bool :=
  s.status = .idle ∨ s.status = .calibrating ∨ s.status = .running

/-- Sample device descriptor for concrete runs. -/
def sampleDevice (i : Int) (n : String) : DeviceInfo :=
  { index := i
    name := n
    devices_set_connector_id := 0
    input_port_position_y_um := 0
    output_port_position_y_um := 0 }

/-- Sample configuration with no devices. -/
def sampleConfig : MeasurementConfig :=
  { order_id := "ORD-1"
    devices := []
    suruga_base_url := "http://suruga"
    exfo_base_url := "http://exfo" }

/-- Sample configuration with three devices, for the pause scenario of the
spec (§8): devices `0`, `1`, `2`. -/
def pauseConfig : MeasurementConfig :=
  { order_id := "ORD"
    devices := [sampleDevice 0 "d0", sampleDevice 1 "d1", sampleDevice 2 "d2"]
    suruga_base_url := "http://suruga"
    exfo_base_url := "http://exfo" }

/-- Schedule with no cancel and no pause signals. -/
def idleSchedule : ControlSchedule :=
  { cancelSet := fun _ => false
    pauseSet := fun _ => false
    resumeSignalled := fun _ => true }

/-- Schedule of the claimed pause scenario: `pause()` is called once after
the checkpoint of iteration 0 and before the checkpoint of iteration 1, so
the never-cleared pause flag reads true from checkpoint 1 on; `resume()` is
called once, while the controller is blocked in its first pause. -/
def singlePauseSingleResume : ControlSchedule :=
  { cancelSet := fun _ => false
    pauseSet := fun i => decide (1 ≤ i)
    resumeSignalled := fun n => decide (n = 0) }

/-- Same pause signal, but an operator who answers every pause with a fresh
`resume()` call. -/
def singlePauseManyResumes : ControlSchedule :=
  { cancelSet := fun _ => false
    pauseSet := fun i => decide (1 ≤ i)
    resumeSignalled := fun _ => true }

/-- A state in status `running` (order started, calibration done), used to
instantiate the active-state claims. -/
def sampleRunningState : MeasurementState :=
  { MeasurementStateMachine.initial_state 0 with
    status := .running
    order_id := some "ORD-1"
    total_devices := 2
    started_at := some 0 }

/-- Manager owning a controller whose background task has not completed. -/
def busyManager : MeasurementManager :=
  { controller := some { config := sampleConfig
                         state := MeasurementStateMachine.initial_state 0 }
    task := some { done := false } }

/-- Simulated contact sensor that clears after 5 retraction steps (spec §8):
reads 0-4 return 1 V, read 5 returns 0 V. -/
def sensorClears5 : Nat → Result ℚ String :=
  fun i => .Ok (if i < 5 then 1 else 0)

/-- Simulated contact sensor that never clears: every read returns 1 V. -/
def sensorNever : Nat → Result ℚ String :=
  fun _ => .Ok 1

/-- Cancellation never requested. -/
def noCancel : Nat → Bool :=
  fun _ => false

/-- Cancellation requested between retraction steps 2 and 3 (the flag, once
set, stays set). -/
def cancelFrom3 : Nat → Bool :=
  fun i => decide (3 ≤ i)

/-- Retraction moves that always succeed. -/
def moveOk : Nat → Result Unit String :=
  fun _ => .Ok ()

/-- Outcome of the health-check HTTP request issued inside
`BaseHardwareClient.connect`: a response with a status code, a raised
`httpx.ConnectError`, or any other raised exception. -/
inductive HttpOutcome where
  | status (code : Nat)
  | connectError (msg : String)
  | otherError (msg : String)
deriving Repr, DecidableEq

/-- `BaseHardwareClient.connect` (`app/hardware/base.py` lines 36-54):
every failure — a refused connection, any other exception, a non-200 health
check — is caught and returned as `Err`; only a 200 health check yields
`Ok` (and sets `_connected`).  Nothing is raised past `connect`. -/
def BaseHardwareClient.connect (base_url : String) (health : HttpOutcome) :
    Result Unit String :=
  match health with
  | .status code =>
      if code = 200 then .Ok ()
      else .Err ("Health check failed with status " ++ toString code)
  | .connectError e => .Err ("Failed to connect to " ++ base_url ++ ": " ++ e)
  | .otherError e => .Err ("Connection error: " ++ e)

/-- `BaseHardwareClient.__aenter__` (`base.py` lines 27-30): awaits
`connect()`, discards its `Result`, and returns `self`.  The value modelled
here is the exception propagated out of context entry, if any: both the
`Ok` and the discarded `Err` path return normally, so it is `none` on
every path — a failed connection is silently ignored at context entry. -/
def BaseHardwareClient.aenter (base_url : String) (health : HttpOutcome) :
    Option String :=
  match BaseHardwareClient.connect base_url health with
  | .Ok _ => none
  | .Err _ => none

/-- Measurement-failed progress events. -/
def isFailedEvent : ProgressEvent → Bool
  | .measurementFailed _ _ => true
  | _ => false

/-- Measurement-completed progress events. -/
def isCompletedEvent : ProgressEvent → Bool
  | .measurementCompleted _ _ _ _ => true
  | _ => false

/-! Helper lemmas. -/

theorem strLenZero (s : String) (h : s.length = 0) : s = "" := by
  cases s with
  | mk data =>
    simp [String.length] at h
    simp [h]

theorem strAppendNeEmpty (a b : String) (ha : a ≠ "") : (a ++ b) ≠ "" := by
  intro hc
  apply ha
  have hlen := congrArg String.length hc
  rw [String.length_append] at hlen
  have he : (("" : String)).length = 0 := rfl
  exact strLenZero a (by omega)

theorem statusMsgNeEmpty (a b : String) (st : MeasurementStatus) (ha : a ≠ "") :
    (a ++ statusStr st ++ b) ≠ "" :=
  strAppendNeEmpty _ _ (strAppendNeEmpty _ _ ha)

theorem pyDictGet_set_self {α β : Type} [DecidableEq α] (l : List (α × β)) (k : α) (v : β) :
    pyDictGet (pyDictSet l k v) k = some v := by
  induction l with
  | nil => simp [pyDictSet, pyDictGet]
  | cons hd tl ih =>
    obtain ⟨k0, v0⟩ := hd
    by_cases hk : k0 = k
    · simp [pyDictSet, hk, pyDictGet]
    · simp [pyDictSet, hk, pyDictGet, ih]

theorem pyDictGet_set_other {α β : Type} [DecidableEq α] (l : List (α × β)) (k k1 : α)
    (v : β) (h : k1 ≠ k) : pyDictGet (pyDictSet l k v) k1 = pyDictGet l k1 := by
  induction l with
  | nil => simp [pyDictSet, pyDictGet, Ne.symm h]
  | cons hd tl ih =>
    obtain ⟨k0, v0⟩ := hd
    by_cases hk : k0 = k
    · subst hk
      simp [pyDictSet, pyDictGet, Ne.symm h]
    · simp [pyDictSet, hk, pyDictGet, ih]

theorem pyDictSet_idem {α β : Type} [DecidableEq α] (l : List (α × β)) (k : α) (v : β) :
    pyDictSet (pyDictSet l k v) k v = pyDictSet l k v := by
  induction l with
  | nil => simp [pyDictSet]
  | cons hd tl ih =>
    obtain ⟨k0, v0⟩ := hd
    by_cases hk : k0 = k
    · simp [pyDictSet, hk]
    · simp [pyDictSet, hk, ih]

theorem mem_keys_pyDictSet {α β : Type} [DecidableEq α] (l : List (α × β)) (k a : α)
    (v : β) : a ∈ (pyDictSet l k v).map Prod.fst ↔ a ∈ l.map Prod.fst ∨ a = k := by
  induction l with
  | nil => simp [pyDictSet]
  | cons hd tl ih =>
    obtain ⟨k0, v0⟩ := hd
    by_cases hk : k0 = k
    · subst hk
      simp [pyDictSet]
      tauto
    · simp [pyDictSet, hk, ih]
      tauto

theorem nodup_keys_pyDictSet {α β : Type} [DecidableEq α] (l : List (α × β)) (k : α)
    (v : β) (h : (l.map Prod.fst).Nodup) : ((pyDictSet l k v).map Prod.fst).Nodup := by
  induction l with
  | nil => simp [pyDictSet]
  | cons hd tl ih =>
    obtain ⟨k0, v0⟩ := hd
    simp only [List.map_cons, List.nodup_cons] at h
    by_cases hk : k0 = k
    · subst hk
      simpa [pyDictSet] using h
    · simp only [pyDictSet, hk, if_false, List.map_cons, List.nodup_cons]
      refine ⟨?_, ih h.2⟩
      rw [mem_keys_pyDictSet]
      push_neg
      exact ⟨h.1, hk⟩

/-! Claim C1. -/

/-- Claim C1: for every state and event whose pair the transition table
marks invalid (`validPair` false, i.e. the event's precondition on
`state.status` fails), `transition` returns `Err` with a non-empty
descriptive reason.  `transition` is a pure function of an immutable
(frozen) state, so the input state is identically what it was before the
call; no `Ok` state is produced. -/
theorem claim_C1_invalid_transition_rejected (now : ℚ) (s : MeasurementState)
    (e : MeasurementEvent) (h : validPair s e = false) :
    ∃ msg, MeasurementStateMachine.transition now s e = .Err msg ∧ msg ≠ "" := by
  cases e with
  | StartMeasurement o n =>
    simp only [validPair, decide_eq_false_iff_not] at h
    exact ⟨"Cannot start measurement from " ++ statusStr s.status ++ " state",
      by simp only [MeasurementStateMachine.transition]; rw [if_pos h],
      statusMsgNeEmpty _ _ _ (by decide)⟩
  | CompleteCalibration i =>
    simp only [validPair, decide_eq_false_iff_not] at h
    exact ⟨"Cannot complete calibration from " ++ statusStr s.status ++ " state",
      by simp only [MeasurementStateMachine.transition]; rw [if_pos h],
      statusMsgNeEmpty _ _ _ (by decide)⟩
  | CompleteChipAngleCalibration la ra =>
    simp only [validPair, decide_eq_false_iff_not] at h
    exact ⟨"Cannot complete chip angle calibration from " ++ statusStr s.status ++ " state",
      by simp only [MeasurementStateMachine.transition]; rw [if_pos h],
      statusMsgNeEmpty _ _ _ (by decide)⟩
  | StartDevice i =>
    simp only [validPair, decide_eq_false_iff_not] at h
    exact ⟨"Cannot start device from " ++ statusStr s.status ++ " state",
      by simp only [MeasurementStateMachine.transition]; rw [if_pos h],
      statusMsgNeEmpty _ _ _ (by decide)⟩
  | UpdateOperation op =>
    simp only [validPair, decide_eq_false_iff_not] at h
    exact ⟨"Cannot update operation from " ++ statusStr s.status ++ " state",
      by simp only [MeasurementStateMachine.transition]; rw [if_pos h],
      statusMsgNeEmpty _ _ _ (by decide)⟩
  | RecordPower i st p =>
    simp only [validPair] at h
    exact ⟨"Cannot record power from " ++ statusStr s.status ++ " state",
      by simp only [MeasurementStateMachine.transition]; rw [if_pos (by simp [h])],
      statusMsgNeEmpty _ _ _ (by decide)⟩
  | CompleteDevice =>
    simp only [validPair, decide_eq_false_iff_not] at h
    exact ⟨"Cannot complete device from " ++ statusStr s.status ++ " state",
      by simp only [MeasurementStateMachine.transition]; rw [if_pos h],
      statusMsgNeEmpty _ _ _ (by decide)⟩
  | PauseMeasurement =>
    simp only [validPair, decide_eq_false_iff_not] at h
    exact ⟨"Cannot pause from " ++ statusStr s.status ++ " state",
      by simp only [MeasurementStateMachine.transition]; rw [if_pos h],
      statusMsgNeEmpty _ _ _ (by decide)⟩
  | ResumeMeasurement =>
    simp only [validPair, decide_eq_false_iff_not] at h
    exact ⟨"Cannot resume from " ++ statusStr s.status ++ " state",
      by simp only [MeasurementStateMachine.transition]; rw [if_pos h],
      statusMsgNeEmpty _ _ _ (by decide)⟩
  | CancelMeasurement =>
    simp only [validPair] at h
    exact ⟨"Cannot cancel from " ++ statusStr s.status ++ " state",
      by simp only [MeasurementStateMachine.transition]; rw [if_pos (by simp [h])],
      statusMsgNeEmpty _ _ _ (by decide)⟩
  | CompleteMeasurement =>
    simp only [validPair, decide_eq_false_iff_not] at h
    exact ⟨"Cannot complete from " ++ statusStr s.status ++ " state",
      by simp only [MeasurementStateMachine.transition]; rw [if_pos h],
      statusMsgNeEmpty _ _ _ (by decide)⟩
  | FailMeasurement err =>
    cases hterm : s.is_terminal with
    | false => simp [validPair, hterm] at h
    | true =>
      exact ⟨"Cannot fail from terminal " ++ statusStr s.status ++ " state",
        by simp only [MeasurementStateMachine.transition]; rw [if_pos hterm],
        statusMsgNeEmpty _ _ _ (by decide)⟩
  | UnknownEvent n =>
    exact ⟨_, rfl, strAppendNeEmpty _ _ (by decide)⟩

/-- Witness for claim C1 at a concrete invalid pair: `CompleteDevice` in the
`idle` initial state. -/
theorem claim_C1_witness :
    validPair (MeasurementStateMachine.initial_state 0) .CompleteDevice = false ∧
    ∃ msg, MeasurementStateMachine.transition 0 (MeasurementStateMachine.initial_state 0)
        .CompleteDevice = .Err msg ∧ msg ≠ "" :=
  ⟨by decide, claim_C1_invalid_transition_rejected 0 _ _ (by decide)⟩

/-! Claim C4. -/

/-- Claim C4: from every active state, `RecordPower (idx, stage, p)` is
accepted; the merge sets exactly the named stage of the named device
(creating the device's stage map if absent) and preserves every other
`(device, stage)` entry; re-applying the same triple changes nothing but
the snapshot timestamp, and at an equal clock reading yields the very same
state.  The merge is built with `pyDictSet` on a copy: the prior state `s`
is a value the function never modifies. -/
theorem claim_C4_record_power_merge (t1 t2 : ℚ) (s : MeasurementState) (idx : Int)
    (stage : String) (p : ℚ) (h : s.is_active = true) :
    ∃ s1, MeasurementStateMachine.transition t1 s (.RecordPower idx stage p) = .Ok s1 ∧
      s1.timestamp = t1 ∧
      MeasurementStateMachine.transition t2 s1 (.RecordPower idx stage p) =
        .Ok { s1 with timestamp := t2 } ∧
      MeasurementStateMachine.transition t1 s1 (.RecordPower idx stage p) = .Ok s1 ∧
      readingAt s1 idx stage = some p ∧
      (∀ d st, ¬ (d = idx ∧ st = stage) → readingAt s1 d st = readingAt s d st) ∧
      s1.power_readings =
        pyDictSet s.power_readings idx
          (pyDictSet ((pyDictGet s.power_readings idx).getD []) stage p) := by
  have hrec : ∀ (t : ℚ) (s2 : MeasurementState), s2.is_active = true →
      MeasurementStateMachine.transition t s2 (.RecordPower idx stage p) =
        .Ok { s2 with
              power_readings :=
                pyDictSet s2.power_readings idx
                  (pyDictSet ((pyDictGet s2.power_readings idx).getD []) stage p)
              timestamp := t } := by
    intro t s2 h2
    simp only [MeasurementStateMachine.transition]
    rw [if_neg (by simp [h2])]
  have hkey :
      pyDictSet
        (pyDictSet s.power_readings idx
          (pyDictSet ((pyDictGet s.power_readings idx).getD []) stage p)) idx
        (pyDictSet
          ((pyDictGet
            (pyDictSet s.power_readings idx
              (pyDictSet ((pyDictGet s.power_readings idx).getD []) stage p)) idx).getD [])
          stage p) =
      pyDictSet s.power_readings idx
        (pyDictSet ((pyDictGet s.power_readings idx).getD []) stage p) := by
    rw [pyDictGet_set_self]
    simp only [Option.getD_some, pyDictSet_idem]
  refine ⟨{ s with
            power_readings :=
              pyDictSet s.power_readings idx
                (pyDictSet ((pyDictGet s.power_readings idx).getD []) stage p)
            timestamp := t1 }, hrec t1 s h, rfl, ?_, ?_, ?_, ?_, rfl⟩
  · have h2 := hrec t2
      { s with
        power_readings :=
          pyDictSet s.power_readings idx
            (pyDictSet ((pyDictGet s.power_readings idx).getD []) stage p)
        timestamp := t1 } h
    rw [hkey] at h2
    exact h2
  · have h3 := hrec t1
      { s with
        power_readings :=
          pyDictSet s.power_readings idx
            (pyDictSet ((pyDictGet s.power_readings idx).getD []) stage p)
        timestamp := t1 } h
    rw [hkey] at h3
    exact h3
  · simp only [readingAt, pyDictGet_set_self]
  · intro d st hne
    by_cases hd : d = idx
    · subst hd
      have hst : st ≠ stage := by tauto
      simp only [readingAt, pyDictGet_set_self]
      rw [pyDictGet_set_other _ _ _ _ hst]
      cases hm : pyDictGet s.power_readings d with
      | none => simp [pyDictGet]
      | some m => simp
    · simp only [readingAt]
      rw [pyDictGet_set_other _ _ _ _ hd]

/-- Witness for claim C4 at a concrete active state and reading. -/
theorem claim_C4_witness :
    sampleRunningState.is_active = true ∧
    ∃ s1, MeasurementStateMachine.transition 0 sampleRunningState
            (.RecordPower 0 "left" (-3)) = .Ok s1 ∧
      s1.timestamp = 0 ∧
      MeasurementStateMachine.transition 1 s1 (.RecordPower 0 "left" (-3)) =
        .Ok { s1 with timestamp := 1 } ∧
      MeasurementStateMachine.transition 0 s1 (.RecordPower 0 "left" (-3)) = .Ok s1 ∧
      readingAt s1 0 "left" = some (-3) ∧
      (∀ d st, ¬ (d = 0 ∧ st = "left") → readingAt s1 d st = readingAt sampleRunningState d st) ∧
      s1.power_readings =
        pyDictSet sampleRunningState.power_readings 0
          (pyDictSet ((pyDictGet sampleRunningState.power_readings 0).getD []) "left" (-3)) :=
  ⟨by decide, claim_C4_record_power_merge 0 1 sampleRunningState 0 "left" (-3) (by decide)⟩

/-! Claim C6. -/

/-- Claim C6: `transition` is a total function into `Result` — for every
state and event it returns either `Ok` or `Err` and cannot raise — and on
an event whose variant is not one of the recognized event classes it
returns an error naming the unknown kind
(`Unknown event type: type(event).__name__`). -/
theorem claim_C6_total_never_raises (now : ℚ) (s : MeasurementState)
    (e : MeasurementEvent) (typeName : String) :
    ((MeasurementStateMachine.transition now s e).is_ok = true ∨
      (MeasurementStateMachine.transition now s e).is_err = true) ∧
    MeasurementStateMachine.transition now s (.UnknownEvent typeName) =
      .Err ("Unknown event type: " ++ typeName) := by
  constructor
  · cases htr : MeasurementStateMachine.transition now s e with
    | Ok v => left; rfl
    | Err msg => right; rfl
  · rfl

/-! Claim C9. -/

/-- Claim C9: `MeasurementManager.start(config)` while the previous run's
background task has not completed (`is_active()`) raises
`RuntimeError("A measurement is already running")` — embedded as
`Except.error` — and performs no assignment, so the first run's controller
and its state are untouched and at most one controller is ever actively
running. -/
theorem claim_C9_start_while_active_fails (t : ℚ) (m : MeasurementManager)
    (cfg : MeasurementConfig) (h : m.is_active = true) :
    m.start t cfg = .error "A measurement is already running" := by
  unfold MeasurementManager.start
  rw [if_pos h]

/-- Witness for claim C9: a manager with a live task rejects a second
`start`. -/
theorem claim_C9_witness :
    busyManager.is_active = true ∧
    busyManager.start 0 sampleConfig = .error "A measurement is already running" :=
  ⟨rfl, claim_C9_start_while_active_fails 0 busyManager sampleConfig rfl⟩

/-! Claim C5. -/

/-- Claim C5: `check_contact_and_retract` (i) reports "no contact" success
with zero moves when the initial read is at or below threshold; (ii) with
threshold 0.01 V, max 30 steps and a sensor clearing at or below threshold
after 5 steps, succeeds after exactly 5 retraction moves (5 cancel checks
before the 5 steps, 6 sensor reads: the initial one plus one after each
step); (iii) with a sensor that never clears, issues exactly 30 moves and
fails with the "contact persisted" error; (iv) cancellation set between
steps 2 and 3 is observed at the very next step boundary: 3 moves, then the
4th pre-step cancel check aborts. -/
theorem claim_C5_contact_retraction :
    (∀ (sensor : Nat → Result ℚ String) (cancelSet : Nat → Bool)
        (moveRes : Nat → Result Unit String) (thr : ℚ) (maxSteps : Nat) (v : ℚ),
        sensor 0 = .Ok v → v ≤ thr →
        SurugaSeikiClient.check_contact_and_retract sensor cancelSet moveRes thr maxSteps =
          { result := .Ok false, moveCalls := 0, sensorReads := 1, cancelChecks := 0 }) ∧
    SurugaSeikiClient.check_contact_and_retract sensorClears5 noCancel moveOk (1 / 100) 30 =
      { result := .Ok true, moveCalls := 5, sensorReads := 6, cancelChecks := 5 } ∧
    SurugaSeikiClient.check_contact_and_retract sensorNever noCancel moveOk (1 / 100) 30 =
      { result := .Err "Contact persisted after 30 retraction steps",
        moveCalls := 30, sensorReads := 31, cancelChecks := 30 } ∧
    SurugaSeikiClient.check_contact_and_retract sensorNever cancelFrom3 moveOk (1 / 100) 30 =
      { result := .Err "Operation cancelled during contact retraction",
        moveCalls := 3, sensorReads := 4, cancelChecks := 4 } := by
  have hq : (1 : ℚ) / 100 = mkRat 1 100 := by norm_num [Rat.mkRat_eq_div]
  refine ⟨?_, by rw [hq]; decide, by rw [hq]; decide, by rw [hq]; decide⟩
  intro sensor cancelSet moveRes thr maxSteps v hs hv
  unfold SurugaSeikiClient.check_contact_and_retract
  rw [hs]
  simp [not_lt.mpr hv]

/-- Witness for claim C5 clause (i): a sensor reading 0 V against the
0.01 V threshold reports no contact without motion. -/
theorem claim_C5_witness :
    SurugaSeikiClient.check_contact_and_retract (fun _ => .Ok 0) noCancel moveOk
      (1 / 100) 30 =
      { result := .Ok false, moveCalls := 0, sensorReads := 1, cancelChecks := 0 } :=
  claim_C5_contact_retraction.1 (fun _ => .Ok 0) noCancel moveOk (1 / 100) 30 0 rfl
    (by norm_num)

/-! Claim C8. -/

theorem transition_recordPower_running (t : ℚ) (s : MeasurementState) (i : Int)
    (st : String) (p : ℚ) (h : s.status = .running) :
    MeasurementStateMachine.transition t s (.RecordPower i st p) =
      .Ok { s with
            power_readings :=
              pyDictSet s.power_readings i
                (pyDictSet ((pyDictGet s.power_readings i).getD []) st p)
            timestamp := t } := by
  simp only [MeasurementStateMachine.transition]
  rw [if_neg (by simp [MeasurementState.is_active, h])]

theorem transition_startDevice_running (t : ℚ) (s : MeasurementState) (i : Int)
    (h : s.status = .running) :
    MeasurementStateMachine.transition t s (.StartDevice i) =
      .Ok { s with current_device_index := i, timestamp := t } := by
  simp only [MeasurementStateMachine.transition]
  rw [if_neg (by simp [h]), if_neg (by simp [h])]

theorem applyEvents_rs_invariant (evs : List (ℚ × MeasurementEvent)) :
    ∀ s : MeasurementState, s.status = .running →
    (s.power_readings.map Prod.fst).Nodup →
    (∀ te ∈ evs, isRecordOrStartDevice te.2 = true) →
    (applyEvents s evs).2 = true ∧ (applyEvents s evs).1.status = .running ∧
    ((applyEvents s evs).1.power_readings.map Prod.fst).Nodup := by
  induction evs with
  | nil => intro s hs hn _; exact ⟨rfl, hs, hn⟩
  | cons hd tl ih =>
    intro s hs hn he
    obtain ⟨t, e⟩ := hd
    have hh := he (t, e) (List.mem_cons_self _ _)
    have htl : ∀ te ∈ tl, isRecordOrStartDevice te.2 = true :=
      fun te hte => he te (List.mem_cons_of_mem _ hte)
    cases e with
    | RecordPower i st p =>
      have htr := transition_recordPower_running t s i st p hs
      simp only [applyEvents, htr]
      exact ih _ hs (nodup_keys_pyDictSet _ _ _ hn) htl
    | StartDevice i =>
      have htr := transition_startDevice_running t s i hs
      simp only [applyEvents, htr]
      exact ih _ hs hn htl
    | StartMeasurement o n => simp [isRecordOrStartDevice] at hh
    | CompleteCalibration c => simp [isRecordOrStartDevice] at hh
    | CompleteChipAngleCalibration la ra => simp [isRecordOrStartDevice] at hh
    | UpdateOperation op => simp [isRecordOrStartDevice] at hh
    | CompleteDevice => simp [isRecordOrStartDevice] at hh
    | PauseMeasurement => simp [isRecordOrStartDevice] at hh
    | ResumeMeasurement => simp [isRecordOrStartDevice] at hh
    | CancelMeasurement => simp [isRecordOrStartDevice] at hh
    | CompleteMeasurement => simp [isRecordOrStartDevice] at hh
    | FailMeasurement err => simp [isRecordOrStartDevice] at hh
    | UnknownEvent n => simp [isRecordOrStartDevice] at hh

theorem filter_map_snd {α β : Type} (l : List (α × β)) (q : β → Bool) :
    (l.map Prod.snd).filter q = (l.filter fun pr => q pr.2).map Prod.snd := by
  induction l with
  | nil => rfl
  | cons hd tl ih =>
    cases hq : q hd.2 <;> simp [List.filter_cons, hq, ih]

theorem successful_eq_countDevices (s : MeasurementState)
    (h : (s.power_readings.map Prod.fst).Nodup) :
    s.successful_devices = countDevicesWithReadings s := by
  unfold MeasurementState.successful_devices countDevicesWithReadings
  rw [filter_map_snd]
  have hsub : List.Sublist (s.power_readings.filter fun pr => !pr.2.isEmpty)
      s.power_readings := List.filter_sublist _
  have hnd : (((s.power_readings.filter fun pr => !pr.2.isEmpty).map Prod.fst)).Nodup :=
    h.sublist (hsub.map Prod.fst)
  rw [List.dedup_eq_self.mpr hnd]
  simp [List.length_map]

/-- Claim C8: for every sequence of `RecordPower` / `StartDevice` events
applied from a valid running state (keys of `power_readings` duplicate-free,
as they are for every Python dict), all events are accepted and the derived
`successful_devices` equals the number of device indices whose stage
mapping in `power_readings` is non-empty. -/
theorem claim_C8_successful_devices_counts (s : MeasurementState)
    (evs : List (ℚ × MeasurementEvent))
    (hs : s.status = .running)
    (hn : (s.power_readings.map Prod.fst).Nodup)
    (he : ∀ te ∈ evs, isRecordOrStartDevice te.2 = true) :
    (applyEvents s evs).2 = true ∧
    (applyEvents s evs).1.successful_devices =
      countDevicesWithReadings (applyEvents s evs).1 := by
  obtain ⟨hok, hst, hnd⟩ := applyEvents_rs_invariant evs s hs hn he
  exact ⟨hok, successful_eq_countDevices _ hnd⟩

/-- Witness for claim C8 on a concrete accepted event sequence. -/
theorem claim_C8_witness :
    (applyEvents sampleRunningState
      [(0, .RecordPower 0 "left" (-3)), (0, .StartDevice 1),
       (0, .RecordPower 0 "right" (-4)), (0, .RecordPower 1 "left" (-5))]).2 = true ∧
    (applyEvents sampleRunningState
      [(0, .RecordPower 0 "left" (-3)), (0, .StartDevice 1),
       (0, .RecordPower 0 "right" (-4)), (0, .RecordPower 1 "left" (-5))]).1.successful_devices =
      countDevicesWithReadings (applyEvents sampleRunningState
        [(0, .RecordPower 0 "left" (-3)), (0, .StartDevice 1),
         (0, .RecordPower 0 "right" (-4)), (0, .RecordPower 1 "left" (-5))]).1 :=
  claim_C8_successful_devices_counts sampleRunningState _ rfl (by decide) (by decide)

/-! Claim C2. -/

theorem processDevice_countP_terminal (t : ℚ) (cfg : MeasurementConfig)
    (d : DeviceInfo) (s : MeasurementState) :
    (MeasurementController.processDevice t cfg d s).events.countP isTerminalEvent = 0 := by
  unfold MeasurementController.processDevice
  cases htr : MeasurementStateMachine.transition t s (.StartDevice d.index) <;>
    simp [List.countP_cons, isTerminalEvent]

theorem deviceLoop_terminal (t : ℚ) (cfg : MeasurementConfig) (sched : ControlSchedule) :
    ∀ (devs : List DeviceInfo) (i p : Nat) (s : MeasurementState),
    ((MeasurementController.deviceLoop t cfg sched devs i p s).completed = true →
      ∃ pre term,
        (MeasurementController.deviceLoop t cfg sched devs i p s).events = pre ++ [term] ∧
        isTerminalEvent term = true ∧ pre.countP isTerminalEvent = 0) ∧
    ((MeasurementController.deviceLoop t cfg sched devs i p s).completed = false →
      (MeasurementController.deviceLoop t cfg sched devs i p s).events.countP
        isTerminalEvent = 0) := by
  intro devs
  induction devs with
  | nil =>
    intro i p s
    constructor
    · intro _
      exact ⟨[], .measurementCompleted cfg.devices.length s.successful_devices
                  ((cfg.devices.length : Int) - (s.successful_devices : Int))
                  ((s.duration_seconds t).getD 0), rfl, rfl, rfl⟩
    · intro hfalse
      simp [MeasurementController.deviceLoop] at hfalse
  | cons d rest ih =>
    intro i p s
    cases hc : sched.cancelSet i with
    | true =>
      constructor
      · intro _
        exact ⟨[], .measurementCancelled d.index,
               by simp [MeasurementController.deviceLoop, hc], rfl, rfl⟩
      · intro hfalse
        simp [MeasurementController.deviceLoop, hc] at hfalse
    | false =>
      cases hp : sched.pauseSet i with
      | false =>
        have hstep := processDevice_countP_terminal t cfg d s
        have ihR := ih (i + 1) p (MeasurementController.processDevice t cfg d s).finalState
        constructor
        · intro hcomp
          have hcomp2 : (MeasurementController.deviceLoop t cfg sched rest (i + 1) p
              (MeasurementController.processDevice t cfg d s).finalState).completed = true := by
            simpa [MeasurementController.deviceLoop, hc, hp] using hcomp
          obtain ⟨pre, term, heq, hterm, hcnt⟩ := ihR.1 hcomp2
          refine ⟨(MeasurementController.processDevice t cfg d s).events ++ pre, term,
                  ?_, hterm, ?_⟩
          · simp [MeasurementController.deviceLoop, hc, hp, heq]
          · simp [List.countP_append, hstep, hcnt]
        · intro hcomp
          have hcomp2 : (MeasurementController.deviceLoop t cfg sched rest (i + 1) p
              (MeasurementController.processDevice t cfg d s).finalState).completed = false := by
            simpa [MeasurementController.deviceLoop, hc, hp] using hcomp
          have h0 := ihR.2 hcomp2
          simp [MeasurementController.deviceLoop, hc, hp, List.countP_append, hstep, h0]
      | true =>
        cases hr : sched.resumeSignalled p with
        | false =>
          constructor
          · intro hcomp
            simp [MeasurementController.deviceLoop, hc, hp, hr] at hcomp
          · intro _
            simp [MeasurementController.deviceLoop, hc, hp, hr, List.countP_cons,
                  isTerminalEvent]
        | true =>
          have hstep := processDevice_countP_terminal t cfg d s
          have ihR := ih (i + 1) (p + 1)
            (MeasurementController.processDevice t cfg d s).finalState
          constructor
          · intro hcomp
            have hcomp2 : (MeasurementController.deviceLoop t cfg sched rest (i + 1) (p + 1)
                (MeasurementController.processDevice t cfg d s).finalState).completed = true := by
              simpa [MeasurementController.deviceLoop, hc, hp, hr] using hcomp
            obtain ⟨pre, term, heq, hterm, hcnt⟩ := ihR.1 hcomp2
            refine ⟨[ProgressEvent.measurementPaused d.index,
                     ProgressEvent.measurementResumed d.index] ++
                    (MeasurementController.processDevice t cfg d s).events ++ pre, term,
                    ?_, hterm, ?_⟩
            · simp [MeasurementController.deviceLoop, hc, hp, hr, heq]
            · simp [List.countP_append, List.countP_cons, isTerminalEvent, hstep, hcnt]
          · intro hcomp
            have hcomp2 : (MeasurementController.deviceLoop t cfg sched rest (i + 1) (p + 1)
                (MeasurementController.processDevice t cfg d s).finalState).completed = false := by
              simpa [MeasurementController.deviceLoop, hc, hp, hr] using hcomp
            have h0 := ihR.2 hcomp2
            simp [MeasurementController.deviceLoop, hc, hp, hr, List.countP_append,
                  List.countP_cons, isTerminalEvent, hstep, h0]

/-- Claim C2: for every configuration, signal schedule and hardware-client
behaviour, a `run()` whose generator terminates yields a non-empty event
sequence that ends with exactly one terminal event (`measurement_completed`,
`measurement_cancelled`, or `measurement_failed`), with no event after it;
and the only way to produce no terminal event is to never end (a run
blocked forever awaiting a resume signal emits no terminal event and is not
over). -/
theorem claim_C2_run_ends_in_one_terminal (t : ℚ) (cfg : MeasurementConfig)
    (hw : HardwareBehavior) (sched : ControlSchedule) :
    ((MeasurementController.run t cfg hw sched).completed = true →
      ∃ pre term,
        (MeasurementController.run t cfg hw sched).events = pre ++ [term] ∧
        isTerminalEvent term = true ∧
        (MeasurementController.run t cfg hw sched).events.countP isTerminalEvent = 1) ∧
    ((MeasurementController.run t cfg hw sched).completed = false →
      (MeasurementController.run t cfg hw sched).events.countP isTerminalEvent = 0) := by
  obtain ⟨su, ex⟩ := hw
  cases su with
  | some e =>
    constructor
    · intro _
      exact ⟨[.measurementStarted cfg.order_id cfg.devices.length],
             .measurementFailed e none, rfl, rfl, rfl⟩
    · intro hf
      simp [MeasurementController.run] at hf
  | none =>
    cases ex with
    | some e =>
      constructor
      · intro _
        exact ⟨[.measurementStarted cfg.order_id cfg.devices.length],
               .measurementFailed e none, rfl, rfl, rfl⟩
      · intro hf
        simp [MeasurementController.run] at hf
    | none =>
      cases htr : MeasurementStateMachine.transition t (MeasurementStateMachine.initial_state t)
          (.StartMeasurement cfg.order_id cfg.devices.length) with
      | Err msg =>
        constructor
        · intro _
          refine ⟨[.measurementStarted cfg.order_id cfg.devices.length],
                  .measurementFailed msg none, ?_, rfl, ?_⟩
          · simp [MeasurementController.run, htr]
          · simp [MeasurementController.run, htr, List.countP_cons, isTerminalEvent]
        · intro hf
          simp [MeasurementController.run, htr] at hf
      | Ok s1 =>
        have hl := deviceLoop_terminal t cfg sched cfg.devices 0 0 s1
        constructor
        · intro hcomp
          have hcomp2 : (MeasurementController.deviceLoop t cfg sched cfg.devices 0 0
              s1).completed = true := by
            simpa [MeasurementController.run, htr] using hcomp
          obtain ⟨pre, term, heq, hterm, hcnt⟩ := hl.1 hcomp2
          refine ⟨ProgressEvent.measurementStarted cfg.order_id cfg.devices.length :: pre,
                  term, ?_, hterm, ?_⟩
          · simp [MeasurementController.run, htr, heq]
          · have hstart : isTerminalEvent
                (ProgressEvent.measurementStarted cfg.order_id cfg.devices.length) = false := rfl
            simp [MeasurementController.run, htr, heq, List.countP_append,
                  List.countP_cons, hcnt, hterm, hstart]
        · intro hcomp
          have hcomp2 : (MeasurementController.deviceLoop t cfg sched cfg.devices 0 0
              s1).completed = false := by
            simpa [MeasurementController.run, htr] using hcomp
          have h0 := hl.2 hcomp2
          simp [MeasurementController.run, htr, List.countP_cons, isTerminalEvent, h0]

/-- Witness for claim C2: a completing run over the empty device list ends
in one terminal event. -/
theorem claim_C2_witness :
    ∃ pre term,
      (MeasurementController.run 0 sampleConfig ⟨none, none⟩ idleSchedule).events =
        pre ++ [term] ∧
      isTerminalEvent term = true ∧
      (MeasurementController.run 0 sampleConfig ⟨none, none⟩ idleSchedule).events.countP
        isTerminalEvent = 1 :=
  (claim_C2_run_ends_in_one_terminal 0 sampleConfig ⟨none, none⟩ idleSchedule).1 (by decide)

/-! Claim C10. -/

theorem transition_startMeasurement_status (t : ℚ) (s s1 : MeasurementState)
    (o : String) (n : Nat)
    (h : MeasurementStateMachine.transition t s (.StartMeasurement o n) = .Ok s1) :
    s1.status = .calibrating := by
  simp only [MeasurementStateMachine.transition] at h
  by_cases hs : s.status ≠ .idle
  · rw [if_pos hs] at h
    cases h
  · rw [if_neg hs] at h
    cases h
    rfl

theorem transition_startDevice_status (t : ℚ) (s s1 : MeasurementState) (i : Int)
    (h : MeasurementStateMachine.transition t s (.StartDevice i) = .Ok s1) :
    s1.status = .running := by
  simp only [MeasurementStateMachine.transition] at h
  by_cases hg : ¬ (s.status = .running ∨ s.status = .calibrating)
  · rw [if_pos hg] at h
    cases h
  · rw [if_neg hg] at h
    push_neg at hg
    by_cases hc : s.status = .calibrating
    · rw [if_pos hc] at h
      cases h
      rfl
    · rw [if_neg hc] at h
      cases h
      rcases hg with hr | hcal
      · exact hr
      · exact absurd hcal hc

theorem transition_updateOperation_status (t : ℚ) (s s1 : MeasurementState) (op : String)
    (h : MeasurementStateMachine.transition t s (.UpdateOperation op) = .Ok s1) :
    s1.status = s.status := by
  simp only [MeasurementStateMachine.transition] at h
  by_cases hg : ¬ (s.status = .running ∨ s.status = .calibrating)
  · rw [if_pos hg] at h
    cases h
  · rw [if_neg hg] at h
    cases h
    rfl

theorem transition_completeDevice_status (t : ℚ) (s s1 : MeasurementState)
    (h : MeasurementStateMachine.transition t s .CompleteDevice = .Ok s1) :
    s1.status = s.status := by
  simp only [MeasurementStateMachine.transition] at h
  by_cases hs : s.status ≠ .running
  · rw [if_pos hs] at h
    cases h
  · rw [if_neg hs] at h
    cases h
    rfl

theorem runPhase_not_terminal (s : MeasurementState) (h : runPhaseStatus s = true) :
    s.is_terminal = false := by
  unfold runPhaseStatus at h
  unfold MeasurementState.is_terminal
  cases hs : s.status <;> simp [hs] at h ⊢

theorem processDevice_invariant (t : ℚ) (cfg : MeasurementConfig) (d : DeviceInfo)
    (s : MeasurementState) (h : runPhaseStatus s = true) :
    ((MeasurementController.processDevice t cfg d s).stateTrace.all runPhaseStatus = true) ∧
    runPhaseStatus (MeasurementController.processDevice t cfg d s).finalState = true ∧
    ((MeasurementController.processDevice t cfg d s).appliedEvents.all
      (fun e => !isLifecycleEvent e) = true) := by
  unfold MeasurementController.processDevice
  cases htr : MeasurementStateMachine.transition t s (.StartDevice d.index) with
  | Err msg =>
    simp [h, isLifecycleEvent]
  | Ok s1 =>
    have h1 : s1.status = .running := transition_startDevice_status t s s1 d.index htr
    have h1run : runPhaseStatus s1 = true := by simp [runPhaseStatus, h1]
    cases hr2 : MeasurementStateMachine.transition t s1 (.UpdateOperation movingToDevice) with
    | Err m2 =>
      cases hr3 : MeasurementStateMachine.transition t s1 .CompleteDevice with
      | Err m3 =>
        simp [h1run, isLifecycleEvent, hr2, hr3]
      | Ok s3 =>
        have h3 : s3.status = s1.status := transition_completeDevice_status t s1 s3 hr3
        simp [h1run, runPhaseStatus, h3, h1, isLifecycleEvent, hr2, hr3]
    | Ok s2 =>
      have h2 : s2.status = s1.status := transition_updateOperation_status t s1 s2 _ hr2
      have h2run : runPhaseStatus s2 = true := by simp [runPhaseStatus, h2, h1]
      cases hr3 : MeasurementStateMachine.transition t s2 .CompleteDevice with
      | Err m3 =>
        simp [h1run, h2run, isLifecycleEvent, hr2, hr3]
      | Ok s3 =>
        have h3 : s3.status = s2.status := transition_completeDevice_status t s2 s3 hr3
        simp [h1run, h2run, runPhaseStatus, h3, h2, h1, isLifecycleEvent, hr2, hr3]

theorem deviceLoop_invariant (t : ℚ) (cfg : MeasurementConfig) (sched : ControlSchedule) :
    ∀ (devs : List DeviceInfo) (i p : Nat) (s : MeasurementState),
    runPhaseStatus s = true →
    ((MeasurementController.deviceLoop t cfg sched devs i p s).stateTrace.all
      runPhaseStatus = true) ∧
    ((MeasurementController.deviceLoop t cfg sched devs i p s).appliedEvents.all
      (fun e => !isLifecycleEvent e) = true) := by
  intro devs
  induction devs with
  | nil =>
    intro i p s h
    simp [MeasurementController.deviceLoop]
  | cons d rest ih =>
    intro i p s h
    obtain ⟨hstep1, hstep2, hstep3⟩ := processDevice_invariant t cfg d s h
    cases hc : sched.cancelSet i with
    | true => simp [MeasurementController.deviceLoop, hc]
    | false =>
      cases hp : sched.pauseSet i with
      | false =>
        obtain ⟨ih1, ih2⟩ := ih (i + 1) p
          (MeasurementController.processDevice t cfg d s).finalState hstep2
        simp [MeasurementController.deviceLoop, hc, hp, List.all_append,
              hstep1, hstep3, ih1, ih2]
      | true =>
        cases hr : sched.resumeSignalled p with
        | false => simp [MeasurementController.deviceLoop, hc, hp, hr]
        | true =>
          obtain ⟨ih1, ih2⟩ := ih (i + 1) (p + 1)
            (MeasurementController.processDevice t cfg d s).finalState hstep2
          simp [MeasurementController.deviceLoop, hc, hp, hr, List.all_append,
                hstep1, hstep3, ih1, ih2]

/-- Claim C10: a controller run never applies `PauseMeasurement`,
`ResumeMeasurement`, `CancelMeasurement`, `CompleteMeasurement` or
`FailMeasurement` to its state machine, and every snapshot `self.state`
ever exposed by `get_state()` — the constructor state and every assigned
state, including the final one left after the generator ends — has status
`idle`, `calibrating` or `running`, hence `is_terminal` is false for every
exposed snapshot even though a terminal progress event is emitted. -/
theorem claim_C10_snapshots_never_terminal (t : ℚ) (cfg : MeasurementConfig)
    (hw : HardwareBehavior) (sched : ControlSchedule) :
    ((MeasurementController.run t cfg hw sched).stateTrace.all
      (fun s => runPhaseStatus s && !s.is_terminal) = true) ∧
    ((MeasurementController.run t cfg hw sched).appliedEvents.all
      (fun e => !isLifecycleEvent e) = true) := by
  have hmain :
      ((MeasurementController.run t cfg hw sched).stateTrace.all runPhaseStatus = true) ∧
      ((MeasurementController.run t cfg hw sched).appliedEvents.all
        (fun e => !isLifecycleEvent e) = true) := by
    obtain ⟨su, ex⟩ := hw
    have h0 : runPhaseStatus (MeasurementStateMachine.initial_state t) = true := rfl
    cases su with
    | some e => simp [MeasurementController.run, h0]
    | none =>
      cases ex with
      | some e => simp [MeasurementController.run, h0]
      | none =>
        cases htr : MeasurementStateMachine.transition t
            (MeasurementStateMachine.initial_state t)
            (.StartMeasurement cfg.order_id cfg.devices.length) with
        | Err msg =>
          simp [MeasurementController.run, htr, h0, isLifecycleEvent]
        | Ok s1 =>
          have h1 : s1.status = .calibrating :=
            transition_startMeasurement_status t _ s1 _ _ htr
          have h1run : runPhaseStatus s1 = true := by simp [runPhaseStatus, h1]
          obtain ⟨hl1, hl2⟩ := deviceLoop_invariant t cfg sched cfg.devices 0 0 s1 h1run
          have hsm : isLifecycleEvent
              (.StartMeasurement cfg.order_id cfg.devices.length) = false := rfl
          simp [MeasurementController.run, htr, h0, h1run, hl1, hl2, hsm]
  obtain ⟨h1, h2⟩ := hmain
  refine ⟨?_, h2⟩
  rw [List.all_eq_true] at h1 ⊢
  intro x hx
  have hxr := h1 x hx
  simp only [Bool.and_eq_true, hxr, true_and]
  simp [runPhase_not_terminal x hxr]

/-! Claim C3. -/

/-- Counterexample to claim C3: with 3 devices, `pause()` signalled once
before the checkpoint preceding the second device and `resume()` signalled
once while the controller is blocked there, the run does pause/resume and
process device 2 of 3 (index 1) in full — but the pause flag is never
cleared, so the checkpoint before the third device pauses again: the claim's
"one single paused/resumed pair … remaining devices processed without
pausing again" fails.  The trace contains two `measurement_paused` events,
device index 2 is never started, and the generator blocks forever
(`completed = false`). -/
theorem claim_C3_counterexample :
    (MeasurementController.run 0 pauseConfig ⟨none, none⟩ singlePauseSingleResume).events =
      [.measurementStarted "ORD" 3,
       .deviceStarted 0 "d0" 3, .deviceMoving 0 "d0", .deviceCompleted 0 "d0",
       .measurementPaused 1, .measurementResumed 1,
       .deviceStarted 1 "d1" 3, .deviceMoving 1 "d1", .deviceCompleted 1 "d1",
       .measurementPaused 2] ∧
    (MeasurementController.run 0 pauseConfig ⟨none, none⟩
      singlePauseSingleResume).completed = false ∧
    (MeasurementController.run 0 pauseConfig ⟨none, none⟩
      singlePauseSingleResume).events.countP isPausedEvent = 2 ∧
    (MeasurementController.run 0 pauseConfig ⟨none, none⟩
      singlePauseSingleResume).events.countP
        (fun e => match e with | .deviceStarted 2 _ _ => true | _ => false) = 0 := by
  refine ⟨by decide, by decide, by decide, by decide⟩

/-- Claim C3 as amended: the single pause signal produces the paused/resumed
pair before device 2 of 3 (index 1), which is then processed in full; but
because the pause flag is never cleared, every later checkpoint pauses
again, so the run needs one fresh resume signal per remaining device — with
them, each remaining device is preceded by its own paused/resumed pair and
the run completes. -/
theorem claim_C3_amended_pause_trace :
    (MeasurementController.run 0 pauseConfig ⟨none, none⟩ singlePauseManyResumes).events =
      [.measurementStarted "ORD" 3,
       .deviceStarted 0 "d0" 3, .deviceMoving 0 "d0", .deviceCompleted 0 "d0",
       .measurementPaused 1, .measurementResumed 1,
       .deviceStarted 1 "d1" 3, .deviceMoving 1 "d1", .deviceCompleted 1 "d1",
       .measurementPaused 2, .measurementResumed 2,
       .deviceStarted 2 "d2" 3, .deviceMoving 2 "d2", .deviceCompleted 2 "d2",
       .measurementCompleted 3 0 3 0] ∧
    (MeasurementController.run 0 pauseConfig ⟨none, none⟩
      singlePauseManyResumes).completed = true := by
  refine ⟨?_, by decide⟩
  have h2 : (0 : ℚ) - 0 = 0 := by norm_num
  conv_rhs => rw [← h2]
  rfl

/-! Claim C7. -/

/-- Claim C7 names a code bug: a hard connection failure cannot abort the
run.  `connect` turns a refused connection into an `Err` (first conjunct),
`__aenter__` discards that `Err` and propagates nothing for every health
outcome (second conjunct), so the only context-entry behaviour the program
realizes in `run()` is `⟨none, none⟩`; under it a run over 3 devices with
no control signals emits `measurement_started` first, then more than two
events (the device pipelines), exactly one `measurement_completed`, and no
`measurement_failed` at all — instead of the claimed immediate
`[measurement_started, measurement_failed]` abort. -/
theorem claim_C7_connect_failure_ignored :
    BaseHardwareClient.connect "http://suruga"
        (.connectError "All connection attempts failed") =
      .Err "Failed to connect to http://suruga: All connection attempts failed" ∧
    (∀ (url : String) (health : HttpOutcome),
        BaseHardwareClient.aenter url health = none) ∧
    (MeasurementController.run 0 pauseConfig ⟨none, none⟩ idleSchedule).events.head? =
      some (.measurementStarted "ORD" 3) ∧
    (MeasurementController.run 0 pauseConfig ⟨none, none⟩ idleSchedule).events.countP
      isFailedEvent = 0 ∧
    (MeasurementController.run 0 pauseConfig ⟨none, none⟩ idleSchedule).events.countP
      isCompletedEvent = 1 ∧
    2 < (MeasurementController.run 0 pauseConfig ⟨none, none⟩ idleSchedule).events.length := by
  refine ⟨rfl, ?_, by decide, by decide, by decide, by decide⟩
  intro url health
  unfold BaseHardwareClient.aenter
  cases BaseHardwareClient.connect url health <;> rfl

end ZeroDb
